import Mathlib

/-!
Shallow embedding of the morph/geometry core of the Christmas-tree scene
(`src/App.tsx`, `src/components/Foliage.tsx`, `src/components/Ornaments.tsx`).

JavaScript doubles are modelled as real numbers; `Math.random()` draws are
modelled as explicit real parameters constrained to `[0, 1)`; per-index draws
are supplied by a stream `rand : ℕ → ℝ`.
-/

namespace ChristmasTree

/-- The 3-dimensional Euclidean space in which all positions live. -/
abbrev E3 := EuclideanSpace ℝ (Fin 3)

/-- Build a 3-vector from its components. -/
def vec3 (a b c : ℝ) : E3 := ![a, b, c]

/-- three.js `THREE.MathUtils.lerp(x, y, t) = x + (y - x) * t`. -/
def lerp (x y t : ℝ) : ℝ := x + (y - x) * t

/-- three.js `THREE.MathUtils.damp(x, y, lambda, dt) = lerp(x, y, 1 - exp(-lambda * dt))`:
frame-rate-independent exponential approach of `x` toward `y`. -/
noncomputable def damp (x y lambda dt : ℝ) : ℝ := lerp x y (1 - Real.exp (-lambda * dt))

/-- One frame of the morph driver in `SceneContent` (src/App.tsx:114):
`morphProgress.current = THREE.MathUtils.damp(morphProgress.current, target, 2.5, delta)`. -/
noncomputable def morphTick (p target dt : ℝ) : ℝ := damp p target 2.5 dt

/-- The list of successive progress values produced by ticking the morph driver
with a fixed target over a list of frame deltas, starting from `p`
(`p` itself included as the first entry). -/
noncomputable def morphTrace (p target : ℝ) : List ℝ → List ℝ
  | [] => [p]
  | dt :: dts => p :: morphTrace (morphTick p target dt) target dts

/-- Progress after `n` ticks with fixed target and fixed frame delta, from `p`. -/
noncomputable def morphIter (p target dt : ℝ) : ℕ → ℝ
  | 0 => p
  | n + 1 => morphTick (morphIter p target dt n) target dt

/-- The list of successive progress values over a list of frames, each frame a
pair `(target, dt)` (the target may change between frames, as it does when the
user toggles the mode). -/
noncomputable def morphTraceFrames (p : ℝ) : List (ℝ × ℝ) → List ℝ
  | [] => [p]
  | f :: fs => p :: morphTraceFrames (morphTick p f.1 f.2) fs

section MorphLemmas

lemma morphTick_eq (p target dt : ℝ) :
    morphTick p target dt = p + (target - p) * (1 - Real.exp (-2.5 * dt)) := by
  simp [morphTick, damp, lerp]

lemma damping_factor_pos {dt : ℝ} (hdt : 0 < dt) : 0 < 1 - Real.exp (-2.5 * dt) := by
  have h : Real.exp (-2.5 * dt) < 1 := Real.exp_lt_one_iff.mpr (by nlinarith)
  linarith

lemma damping_factor_lt_one (dt : ℝ) : 1 - Real.exp (-2.5 * dt) < 1 := by
  have h := Real.exp_pos (-2.5 * dt)
  linarith

lemma damping_factor_nonneg {dt : ℝ} (hdt : 0 ≤ dt) : 0 ≤ 1 - Real.exp (-2.5 * dt) := by
  have h : Real.exp (-2.5 * dt) ≤ 1 := Real.exp_le_one_iff.mpr (by nlinarith)
  linarith

/-- For a positive frame delta, a tick from strictly below the target lands
strictly between the current value and the target. -/
lemma morphTick_between_lt {p target dt : ℝ} (h : p < target) (hdt : 0 < dt) :
    p < morphTick p target dt ∧ morphTick p target dt < target := by
  rw [morphTick_eq]
  have hk0 := damping_factor_pos hdt
  have hk1 := damping_factor_lt_one dt
  constructor <;> nlinarith

/-- For a positive frame delta, a tick from strictly above the target lands
strictly between the target and the current value. -/
lemma morphTick_between_gt {p target dt : ℝ} (h : target < p) (hdt : 0 < dt) :
    target < morphTick p target dt ∧ morphTick p target dt < p := by
  rw [morphTick_eq]
  have hk0 := damping_factor_pos hdt
  have hk1 := damping_factor_lt_one dt
  constructor <;> nlinarith

lemma morphTick_fixed (target dt : ℝ) : morphTick target target dt = target := by
  rw [morphTick_eq]; ring

lemma morphTick_mem_Icc {p target dt : ℝ} (hp0 : 0 ≤ p) (hp1 : p ≤ 1)
    (ht0 : 0 ≤ target) (ht1 : target ≤ 1) (hdt : 0 ≤ dt) :
    0 ≤ morphTick p target dt ∧ morphTick p target dt ≤ 1 := by
  rw [morphTick_eq]
  have hk0 := damping_factor_nonneg hdt
  have hk1 := le_of_lt (damping_factor_lt_one dt)
  constructor <;> nlinarith

lemma morphTrace_head (p target : ℝ) (dts : List ℝ) :
    (morphTrace p target dts).head? = some p := by
  cases dts <;> simp [morphTrace]

lemma morphTraceFrames_mem_Icc (p : ℝ) (hp0 : 0 ≤ p) (hp1 : p ≤ 1)
    (frames : List (ℝ × ℝ))
    (hframes : ∀ f ∈ frames, (f.1 = 0 ∨ f.1 = 1) ∧ 0 ≤ f.2) :
    ∀ q ∈ morphTraceFrames p frames, 0 ≤ q ∧ q ≤ 1 := by
  induction frames generalizing p with
  | nil =>
    intro q hq
    simp only [morphTraceFrames, List.mem_singleton] at hq
    exact hq ▸ ⟨hp0, hp1⟩
  | cons f rest ih =>
    have hf := hframes f (by simp)
    have hrest : ∀ g ∈ rest, (g.1 = 0 ∨ g.1 = 1) ∧ 0 ≤ g.2 :=
      fun g hg => hframes g (by simp [hg])
    have ht0 : 0 ≤ f.1 := by rcases hf.1 with h | h <;> simp [h]
    have ht1 : f.1 ≤ 1 := by rcases hf.1 with h | h <;> simp [h]
    obtain ⟨hq0, hq1⟩ := morphTick_mem_Icc hp0 hp1 ht0 ht1 hf.2
    intro q hq
    simp only [morphTraceFrames, List.mem_cons] at hq
    rcases hq with hq | hq
    · exact hq ▸ ⟨hp0, hp1⟩
    · exact ih (morphTick p f.1 f.2) hq0 hq1 hrest q hq

end MorphLemmas

/-- Claim C2: for every initial progress value and target, over any sequence of
ticks with positive frame deltas, the sequence of progress values moves strictly
monotonically in the direction of the target and never reaches or crosses
(overshoots) it; a progress already at the target stays there. -/
theorem morph_monotone_no_overshoot (p target : ℝ) (dts : List ℝ)
    (hdts : ∀ d ∈ dts, 0 < d) :
    (p < target →
      List.Chain' (· < ·) (morphTrace p target dts) ∧
      ∀ q ∈ morphTrace p target dts, q < target) ∧
    (target < p →
      List.Chain' (fun a b => b < a) (morphTrace p target dts) ∧
      ∀ q ∈ morphTrace p target dts, target < q) ∧
    (p = target → ∀ q ∈ morphTrace p target dts, q = target) := by
  induction dts generalizing p with
  | nil =>
    refine ⟨fun h => ⟨?_, ?_⟩, fun h => ⟨?_, ?_⟩, fun h q hq => ?_⟩
    · simp [morphTrace]
    · intro q hq
      simp only [morphTrace, List.mem_singleton] at hq
      exact hq ▸ h
    · simp [morphTrace]
    · intro q hq
      simp only [morphTrace, List.mem_singleton] at hq
      exact hq ▸ h
    · simp only [morphTrace, List.mem_singleton] at hq
      exact hq.trans h
  | cons dt rest ih =>
    have hdt : 0 < dt := hdts dt (by simp)
    have hrest : ∀ d ∈ rest, 0 < d := fun d hd => hdts d (by simp [hd])
    refine ⟨fun h => ?_, fun h => ?_, fun h => ?_⟩
    · obtain ⟨h1, h2⟩ := morphTick_between_lt h hdt
      obtain ⟨ihc, ihb⟩ := (ih (morphTick p target dt) hrest).1 h2
      constructor
      · simp only [morphTrace]
        rw [List.chain'_cons']
        refine ⟨fun b hb => ?_, ihc⟩
        rw [morphTrace_head] at hb
        simp only [Option.mem_def, Option.some_inj] at hb
        exact hb ▸ h1
      · intro q hq
        simp only [morphTrace, List.mem_cons] at hq
        rcases hq with hq | hq
        · exact hq ▸ h
        · exact ihb q hq
    · obtain ⟨h1, h2⟩ := morphTick_between_gt h hdt
      obtain ⟨ihc, ihb⟩ := (ih (morphTick p target dt) hrest).2.1 h1
      constructor
      · simp only [morphTrace]
        rw [List.chain'_cons']
        refine ⟨fun b hb => ?_, ihc⟩
        rw [morphTrace_head] at hb
        simp only [Option.mem_def, Option.some_inj] at hb
        exact hb ▸ h2
      · intro q hq
        simp only [morphTrace, List.mem_cons] at hq
        rcases hq with hq | hq
        · exact hq ▸ h
        · exact ihb q hq
    · intro q hq
      simp only [morphTrace, List.mem_cons] at hq
      rcases hq with hq | hq
      · exact hq.trans h
      · have hfix : morphTick p target dt = target := by rw [h, morphTick_fixed]
        rw [hfix] at hq
        exact (ih target hrest).2.2 rfl q hq

/-- Witness for claim C2 at `p = 0`, `target = 1`, a single tick of delta 1. -/
theorem morph_monotone_no_overshoot_witness :
    List.Chain' (· < ·) (morphTrace 0 1 [1]) ∧ ∀ q ∈ morphTrace 0 1 [1], q < 1 :=
  (morph_monotone_no_overshoot 0 1 [1] (by norm_num)).1 (by norm_num)

/-- Claim C3: with progress initialized to 0, per-frame targets in {0, 1} and
non-negative frame deltas, the morph progress remains in the closed interval
[0, 1] after every tick, although no explicit clamp is present. -/
theorem morph_progress_unit_interval (frames : List (ℝ × ℝ))
    (hframes : ∀ f ∈ frames, (f.1 = 0 ∨ f.1 = 1) ∧ 0 ≤ f.2) :
    ∀ q ∈ morphTraceFrames 0 frames, 0 ≤ q ∧ q ≤ 1 :=
  morphTraceFrames_mem_Icc 0 (by norm_num) (by norm_num) frames hframes

/-- Witness for claim C3: the element reached after one tick of the schedule
`[(1, 1)]` lies in `[0, 1]`. -/
theorem morph_progress_unit_interval_witness :
    0 ≤ morphTick 0 1 1 ∧ morphTick 0 1 1 ≤ 1 :=
  morph_progress_unit_interval [(1, 1)] (by norm_num) (morphTick 0 1 1)
    (by simp [morphTraceFrames])

/-! Geometry generation (src/components/Foliage.tsx, src/components/Ornaments.tsx). -/

lemma vec3_apply_zero (a b c : ℝ) : vec3 a b c 0 = a := rfl

lemma vec3_apply_one (a b c : ℝ) : vec3 a b c 1 = b := rfl

lemma vec3_apply_two (a b c : ℝ) : vec3 a b c 2 = c := rfl

lemma norm_vec3 (a b c : ℝ) : ‖vec3 a b c‖ = Real.sqrt (a ^ 2 + b ^ 2 + c ^ 2) := by
  rw [EuclideanSpace.norm_eq]
  congr 1
  rw [Fin.sum_univ_three]
  simp [vec3, Real.norm_eq_abs, sq_abs]

/-- Scatter-shell sample shared by both fields
(src/components/Foliage.tsx:119-125, src/components/Ornaments.tsx:39-45):
radius `minR + u1 * spread`, azimuth `u2 * π * 2`, polar angle
`acos(2 * u3 - 1)`, converted to Cartesian coordinates. -/
noncomputable def scatterShell (minR spread u1 u2 u3 : ℝ) : E3 :=
  let sr := minR + u1 * spread
  let sTheta := u2 * Real.pi * 2
  let sPhi := Real.arccos (2 * u3 - 1)
  vec3 (sr * Real.sin sPhi * Real.cos sTheta)
       (sr * Real.sin sPhi * Real.sin sTheta)
       (sr * Real.cos sPhi)

/-- Tree-volume sample of the foliage field (src/components/Foliage.tsx:100-116):
`yNorm = u1^0.8` (density biased toward the base), height `yNorm * 14 - 7`,
cone radius `(1 - yNorm) * 5`, area-uniform disc point `sqrt(u3) * r` at
azimuth `u2 * π * 2`. -/
noncomputable def foliageTreePos (u1 u2 u3 : ℝ) : E3 :=
  let yNorm := u1 ^ (0.8 : ℝ)
  let y := yNorm * 14 - 14 / 2
  let r := (1 - yNorm) * 5
  let theta := u2 * Real.pi * 2
  let rad := Real.sqrt u3 * r
  vec3 (rad * Real.cos theta) y (rad * Real.sin theta)

/-- Tree-spiral sample of the ornament field (src/components/Ornaments.tsx:25-36):
uniform `yNorm = u`, height `u * 13 - 6.5`, cone-surface radius
`(1 - u) * 4.8`, spiral azimuth `y * 2 + i * 1.618 * π * 2`. -/
noncomputable def ornamentTreePos (i : ℕ) (u : ℝ) : E3 :=
  let y := u * 13 - 13 / 2
  let r := (1 - u) * 4.8
  let theta := y * 2 + i * 1.618 * (Real.pi * 2)
  vec3 (r * Real.cos theta) y (r * Real.sin theta)

lemma norm_scatterShell (minR spread u1 u2 u3 : ℝ) (h : 0 ≤ minR + u1 * spread) :
    ‖scatterShell minR spread u1 u2 u3‖ = minR + u1 * spread := by
  have h1 : Real.cos (u2 * Real.pi * 2) ^ 2 + Real.sin (u2 * Real.pi * 2) ^ 2 = 1 :=
    Real.cos_sq_add_sin_sq _
  have h2 : Real.sin (Real.arccos (2 * u3 - 1)) ^ 2 +
      Real.cos (Real.arccos (2 * u3 - 1)) ^ 2 = 1 := Real.sin_sq_add_cos_sq _
  rw [scatterShell, norm_vec3]
  rw [show ((minR + u1 * spread) * Real.sin (Real.arccos (2 * u3 - 1)) *
        Real.cos (u2 * Real.pi * 2)) ^ 2 +
      ((minR + u1 * spread) * Real.sin (Real.arccos (2 * u3 - 1)) *
        Real.sin (u2 * Real.pi * 2)) ^ 2 +
      ((minR + u1 * spread) * Real.cos (Real.arccos (2 * u3 - 1))) ^ 2 =
      (minR + u1 * spread) ^ 2 by
    linear_combination ((minR + u1 * spread) ^ 2 *
      Real.sin (Real.arccos (2 * u3 - 1)) ^ 2) * h1 + (minR + u1 * spread) ^ 2 * h2]
  exact Real.sqrt_sq h

/-- Claim C4: every generated scatter position of the particle field lies at
Euclidean distance within [15, 25] of the origin, and every generated scatter
position of the ornament field within [12, 24] — the `[minRadius, minRadius +
radiusSpread]` shells of the two fields. -/
theorem scatter_distance_in_shell (u1 u2 u3 : ℝ) (h0 : 0 ≤ u1) (h1 : u1 < 1) :
    (15 ≤ ‖scatterShell 15 10 u1 u2 u3‖ ∧ ‖scatterShell 15 10 u1 u2 u3‖ ≤ 25) ∧
    (12 ≤ ‖scatterShell 12 12 u1 u2 u3‖ ∧ ‖scatterShell 12 12 u1 u2 u3‖ ≤ 24) := by
  have e1 : ‖scatterShell 15 10 u1 u2 u3‖ = 15 + u1 * 10 :=
    norm_scatterShell 15 10 u1 u2 u3 (by nlinarith)
  have e2 : ‖scatterShell 12 12 u1 u2 u3‖ = 12 + u1 * 12 :=
    norm_scatterShell 12 12 u1 u2 u3 (by nlinarith)
  rw [e1, e2]
  refine ⟨⟨by nlinarith, by nlinarith⟩, by nlinarith, by nlinarith⟩

/-- Witness for claim C4 at the draw `(1/2, 0, 1)`. -/
theorem scatter_distance_in_shell_witness :
    (15 ≤ ‖scatterShell 15 10 (1/2) 0 1‖ ∧ ‖scatterShell 15 10 (1/2) 0 1‖ ≤ 25) ∧
    (12 ≤ ‖scatterShell 12 12 (1/2) 0 1‖ ∧ ‖scatterShell 12 12 (1/2) 0 1‖ ≤ 24) :=
  scatter_distance_in_shell (1/2) 0 1 (by norm_num) (by norm_num)

/-- Claim C5: every tree-volume target point of the particle field has height
in [-height/2, height/2] = [-7, 7] and horizontal radius at most
`baseRadius * (1 - yNorm) = 5 * (1 - u1^0.8)`: every point lies inside the cone
profile shrinking linearly to zero at the apex. -/
theorem foliage_tree_point_in_cone (u1 u2 u3 : ℝ) (h10 : 0 ≤ u1) (h11 : u1 < 1)
    (_h30 : 0 ≤ u3) (h31 : u3 < 1) :
    (-(14 / 2) ≤ foliageTreePos u1 u2 u3 1 ∧ foliageTreePos u1 u2 u3 1 ≤ 14 / 2) ∧
    Real.sqrt (foliageTreePos u1 u2 u3 0 ^ 2 + foliageTreePos u1 u2 u3 2 ^ 2) ≤
      5 * (1 - u1 ^ (0.8 : ℝ)) := by
  have hy0 : 0 ≤ u1 ^ (0.8 : ℝ) := Real.rpow_nonneg h10 _
  have hy1 : u1 ^ (0.8 : ℝ) < 1 := Real.rpow_lt_one h10 h11 (by norm_num)
  have hs0 : 0 ≤ Real.sqrt u3 := Real.sqrt_nonneg u3
  have hs1 : Real.sqrt u3 ≤ 1 := by
    have := Real.sqrt_le_sqrt (le_of_lt h31)
    rwa [Real.sqrt_one] at this
  have hcs : Real.cos (u2 * Real.pi * 2) ^ 2 + Real.sin (u2 * Real.pi * 2) ^ 2 = 1 :=
    Real.cos_sq_add_sin_sq _
  simp only [foliageTreePos, vec3_apply_zero, vec3_apply_one, vec3_apply_two]
  refine ⟨⟨by nlinarith, by nlinarith⟩, ?_⟩
  have hrad : 0 ≤ Real.sqrt u3 * ((1 - u1 ^ (0.8 : ℝ)) * 5) := by nlinarith
  rw [show (Real.sqrt u3 * ((1 - u1 ^ (0.8 : ℝ)) * 5) * Real.cos (u2 * Real.pi * 2)) ^ 2 +
      (Real.sqrt u3 * ((1 - u1 ^ (0.8 : ℝ)) * 5) * Real.sin (u2 * Real.pi * 2)) ^ 2 =
      (Real.sqrt u3 * ((1 - u1 ^ (0.8 : ℝ)) * 5)) ^ 2 by
    linear_combination (Real.sqrt u3 * ((1 - u1 ^ (0.8 : ℝ)) * 5)) ^ 2 * hcs]
  rw [Real.sqrt_sq hrad]
  nlinarith

/-- Witness for claim C5 at the draw `(1/2, 0, 1/4)`. -/
theorem foliage_tree_point_in_cone_witness :
    (-(14 / 2) ≤ foliageTreePos (1/2) 0 (1/4) 1 ∧
      foliageTreePos (1/2) 0 (1/4) 1 ≤ 14 / 2) ∧
    Real.sqrt (foliageTreePos (1/2) 0 (1/4) 0 ^ 2 + foliageTreePos (1/2) 0 (1/4) 2 ^ 2) ≤
      5 * (1 - (1/2 : ℝ) ^ (0.8 : ℝ)) :=
  foliage_tree_point_in_cone (1/2) 0 (1/4) (by norm_num) (by norm_num)
    (by norm_num) (by norm_num)

/-- Claim C6: every ornament tree target sits exactly on the cone surface,
with horizontal radius `baseRadius * (1 - yNorm) = 4.8 * (1 - u)`, height the
affine image `u * 13 - 13/2` of the uniform draw, and azimuthal angle the
deterministic function `2·y - i·g` of the height `y` and the index `i` times
the golden angle `g = (2 - 1.618) * 2π ≈ 2.40` (the code's increment
`i * 1.618 * 2π` is congruent to `-i·g` modulo `2π`). -/
theorem ornament_tree_on_cone_spiral (i : ℕ) (u : ℝ) (_h0 : 0 ≤ u) (h1 : u ≤ 1) :
    Real.sqrt (ornamentTreePos i u 0 ^ 2 + ornamentTreePos i u 2 ^ 2) =
      4.8 * (1 - u) ∧
    ornamentTreePos i u 1 = u * 13 - 13 / 2 ∧
    ornamentTreePos i u 0 = (1 - u) * 4.8 *
      Real.cos ((u * 13 - 13 / 2) * 2 - i * ((2 - 1.618) * (2 * Real.pi))) ∧
    ornamentTreePos i u 2 = (1 - u) * 4.8 *
      Real.sin ((u * 13 - 13 / 2) * 2 - i * ((2 - 1.618) * (2 * Real.pi))) ∧
    2.39 < (2 - 1.618) * (2 * Real.pi) ∧ (2 - 1.618) * (2 * Real.pi) < 2.41 := by
  have hg1 : (2.39 : ℝ) < (2 - 1.618) * (2 * Real.pi) := by
    nlinarith [Real.pi_gt_d4]
  have hg2 : ((2 - 1.618) * (2 * Real.pi) : ℝ) < 2.41 := by
    nlinarith [Real.pi_lt_d4]
  have hcs := Real.cos_sq_add_sin_sq ((u * 13 - 13 / 2) * 2 + (i : ℝ) * 1.618 * (Real.pi * 2))
  have hang : (u * 13 - 13 / 2) * 2 + (i : ℝ) * 1.618 * (Real.pi * 2) =
      ((u * 13 - 13 / 2) * 2 - i * ((2 - 1.618) * (2 * Real.pi))) +
        ((2 * i : ℤ) : ℝ) * (2 * Real.pi) := by
    push_cast
    ring
  simp only [ornamentTreePos, vec3_apply_zero, vec3_apply_one, vec3_apply_two]
  refine ⟨?_, by trivial, ?_, ?_, hg1, hg2⟩
  · rw [show ((1 - u) * 4.8 *
        Real.cos ((u * 13 - 13 / 2) * 2 + (i : ℝ) * 1.618 * (Real.pi * 2))) ^ 2 +
        ((1 - u) * 4.8 *
        Real.sin ((u * 13 - 13 / 2) * 2 + (i : ℝ) * 1.618 * (Real.pi * 2))) ^ 2 =
        ((1 - u) * 4.8) ^ 2 from by linear_combination ((1 - u) * 4.8) ^ 2 * hcs]
    rw [Real.sqrt_sq (by nlinarith)]
    ring
  · rw [hang, Real.cos_add_int_mul_two_pi]
  · rw [hang, Real.sin_add_int_mul_two_pi]

/-- Witness for claim C6 at index 1 and draw `u = 1/2`. -/
theorem ornament_tree_on_cone_spiral_witness :
    Real.sqrt (ornamentTreePos 1 (1/2) 0 ^ 2 + ornamentTreePos 1 (1/2) 2 ^ 2) =
      4.8 * (1 - 1/2) ∧
    ornamentTreePos 1 (1/2) 1 = (1/2) * 13 - 13 / 2 ∧
    ornamentTreePos 1 (1/2) 0 = (1 - 1/2) * 4.8 *
      Real.cos (((1/2) * 13 - 13 / 2) * 2 - 1 * ((2 - 1.618) * (2 * Real.pi))) ∧
    ornamentTreePos 1 (1/2) 2 = (1 - 1/2) * 4.8 *
      Real.sin (((1/2) * 13 - 13 / 2) * 2 - 1 * ((2 - 1.618) * (2 * Real.pi))) ∧
    2.39 < (2 - 1.618) * (2 * Real.pi) ∧ (2 - 1.618) * (2 * Real.pi) < 2.41 := by
  have h := ornament_tree_on_cone_spiral 1 (1/2) (by norm_num) (by norm_num)
  simpa using h

lemma norm_foliageTreePos_le (u1 u2 u3 : ℝ) (h10 : 0 ≤ u1) (h11 : u1 < 1)
    (_h30 : 0 ≤ u3) (h31 : u3 < 1) :
    ‖foliageTreePos u1 u2 u3‖ ≤ Real.sqrt (5 ^ 2 + 7 ^ 2) := by
  have hy0 : 0 ≤ u1 ^ (0.8 : ℝ) := Real.rpow_nonneg h10 _
  have hy1 : u1 ^ (0.8 : ℝ) < 1 := Real.rpow_lt_one h10 h11 (by norm_num)
  have hs0 : 0 ≤ Real.sqrt u3 := Real.sqrt_nonneg u3
  have hs1 : Real.sqrt u3 ≤ 1 := by
    have := Real.sqrt_le_sqrt (le_of_lt h31)
    rwa [Real.sqrt_one] at this
  have hcs := Real.cos_sq_add_sin_sq (u2 * Real.pi * 2)
  simp only [foliageTreePos]
  rw [norm_vec3]
  apply Real.sqrt_le_sqrt
  set s := Real.sqrt u3 with hsdef
  set a := u1 ^ (0.8 : ℝ) with hadef
  set c := Real.cos (u2 * Real.pi * 2) with hcdef
  set d := Real.sin (u2 * Real.pi * 2) with hddef
  have hxz : (s * ((1 - a) * 5) * c) ^ 2 + (s * ((1 - a) * 5) * d) ^ 2 =
      (s * ((1 - a) * 5)) ^ 2 := by
    linear_combination (s * ((1 - a) * 5)) ^ 2 * hcs
  have hR0 : 0 ≤ s * ((1 - a) * 5) := mul_nonneg hs0 (by nlinarith)
  have hR5 : s * ((1 - a) * 5) ≤ 5 := by nlinarith
  have hyb : -(7 : ℝ) ≤ a * 14 - 14 / 2 ∧ a * 14 - 14 / 2 ≤ 7 := by
    constructor <;> nlinarith
  nlinarith [hxz, hR0, hR5, hyb.1, hyb.2,
    mul_nonneg (by linarith : (0 : ℝ) ≤ 5 - s * ((1 - a) * 5))
      (by linarith : (0 : ℝ) ≤ 5 + s * ((1 - a) * 5)),
    mul_nonneg (by linarith : (0 : ℝ) ≤ 7 - (a * 14 - 14 / 2))
      (by linarith : (0 : ℝ) ≤ 7 + (a * 14 - 14 / 2))]

lemma norm_ornamentTreePos_le (i : ℕ) (u : ℝ) (h0 : 0 ≤ u) (h1 : u ≤ 1) :
    ‖ornamentTreePos i u‖ ≤ Real.sqrt (4.8 ^ 2 + 6.5 ^ 2) := by
  have hcs := Real.cos_sq_add_sin_sq
    ((u * 13 - 13 / 2) * 2 + (i : ℝ) * 1.618 * (Real.pi * 2))
  simp only [ornamentTreePos]
  rw [norm_vec3]
  apply Real.sqrt_le_sqrt
  have hxz : ((1 - u) * 4.8 *
      Real.cos ((u * 13 - 13 / 2) * 2 + (i : ℝ) * 1.618 * (Real.pi * 2))) ^ 2 +
      ((1 - u) * 4.8 *
      Real.sin ((u * 13 - 13 / 2) * 2 + (i : ℝ) * 1.618 * (Real.pi * 2))) ^ 2 =
      ((1 - u) * 4.8) ^ 2 := by
    linear_combination ((1 - u) * 4.8) ^ 2 * hcs
  nlinarith [hxz, sq_nonneg u, sq_nonneg (1 - u)]

lemma sqrt_74_lt_15 : Real.sqrt (5 ^ 2 + 7 ^ 2) < 15 := by
  nlinarith [Real.sq_sqrt (by norm_num : (0 : ℝ) ≤ 5 ^ 2 + 7 ^ 2),
    Real.sqrt_nonneg ((5 : ℝ) ^ 2 + 7 ^ 2)]

lemma sqrt_ornament_lt_12 : Real.sqrt ((4.8 : ℝ) ^ 2 + 6.5 ^ 2) < 12 := by
  nlinarith [Real.sq_sqrt (by norm_num : (0 : ℝ) ≤ (4.8 : ℝ) ^ 2 + 6.5 ^ 2),
    Real.sqrt_nonneg ((4.8 : ℝ) ^ 2 + 6.5 ^ 2)]

/-- Claim C10: the scattered and assembled configurations are spatially
disjoint: a foliage scatter point lies at distance at least 15 from the origin
while every foliage tree point lies within `sqrt(5² + 7²) ≈ 8.61 < 15`, and an
ornament scatter point lies at distance at least 12 while every ornament tree
point lies within `sqrt(4.8² + 6.5²) ≈ 8.08 < 12`; hence no scatter point ever
coincides with a tree point. -/
theorem scatter_tree_configurations_disjoint
    (u1 u2 u3 v1 v2 v3 : ℝ) (i : ℕ) (w x1 x2 x3 : ℝ)
    (h10 : 0 ≤ u1) (h11 : u1 < 1) (h30 : 0 ≤ u3) (h31 : u3 < 1) (hv1 : 0 ≤ v1)
    (hw0 : 0 ≤ w) (hw1 : w ≤ 1) (hx1 : 0 ≤ x1) :
    (‖foliageTreePos u1 u2 u3‖ ≤ Real.sqrt (5 ^ 2 + 7 ^ 2) ∧
      Real.sqrt (5 ^ 2 + 7 ^ 2) < 15 ∧
      15 ≤ ‖scatterShell 15 10 v1 v2 v3‖ ∧
      foliageTreePos u1 u2 u3 ≠ scatterShell 15 10 v1 v2 v3) ∧
    (‖ornamentTreePos i w‖ ≤ Real.sqrt ((4.8 : ℝ) ^ 2 + 6.5 ^ 2) ∧
      Real.sqrt ((4.8 : ℝ) ^ 2 + 6.5 ^ 2) < 12 ∧
      12 ≤ ‖scatterShell 12 12 x1 x2 x3‖ ∧
      ornamentTreePos i w ≠ scatterShell 12 12 x1 x2 x3) := by
  have hf := norm_foliageTreePos_le u1 u2 u3 h10 h11 h30 h31
  have ho := norm_ornamentTreePos_le i w hw0 hw1
  have hsf : ‖scatterShell 15 10 v1 v2 v3‖ = 15 + v1 * 10 :=
    norm_scatterShell 15 10 v1 v2 v3 (by nlinarith)
  have hso : ‖scatterShell 12 12 x1 x2 x3‖ = 12 + x1 * 12 :=
    norm_scatterShell 12 12 x1 x2 x3 (by nlinarith)
  have hsf15 : 15 ≤ ‖scatterShell 15 10 v1 v2 v3‖ := by rw [hsf]; nlinarith
  have hso12 : 12 ≤ ‖scatterShell 12 12 x1 x2 x3‖ := by rw [hso]; nlinarith
  have hltf : ‖foliageTreePos u1 u2 u3‖ < ‖scatterShell 15 10 v1 v2 v3‖ :=
    lt_of_le_of_lt hf (lt_of_lt_of_le sqrt_74_lt_15 hsf15)
  have hlto : ‖ornamentTreePos i w‖ < ‖scatterShell 12 12 x1 x2 x3‖ :=
    lt_of_le_of_lt ho (lt_of_lt_of_le sqrt_ornament_lt_12 hso12)
  refine ⟨⟨hf, sqrt_74_lt_15, hsf15, fun heq => ?_⟩,
    ho, sqrt_ornament_lt_12, hso12, fun heq => ?_⟩
  · exact absurd (congrArg norm heq) (ne_of_lt hltf)
  · exact absurd (congrArg norm heq) (ne_of_lt hlto)

/-- Witness for claim C10 at concrete draws. -/
theorem scatter_tree_configurations_disjoint_witness :
    (‖foliageTreePos (1/2) 0 (1/4)‖ ≤ Real.sqrt (5 ^ 2 + 7 ^ 2) ∧
      Real.sqrt (5 ^ 2 + 7 ^ 2) < 15 ∧
      15 ≤ ‖scatterShell 15 10 0 0 1‖ ∧
      foliageTreePos (1/2) 0 (1/4) ≠ scatterShell 15 10 0 0 1) ∧
    (‖ornamentTreePos 1 (1/2)‖ ≤ Real.sqrt ((4.8 : ℝ) ^ 2 + 6.5 ^ 2) ∧
      Real.sqrt ((4.8 : ℝ) ^ 2 + 6.5 ^ 2) < 12 ∧
      12 ≤ ‖scatterShell 12 12 0 0 1‖ ∧
      ornamentTreePos 1 (1/2) ≠ scatterShell 12 12 0 0 1) :=
  scatter_tree_configurations_disjoint (1/2) 0 (1/4) 0 0 1 1 (1/2) 0 0 1
    (by norm_num) (by norm_num) (by norm_num) (by norm_num) (by norm_num)
    (by norm_num) (by norm_num) (by norm_num)

/-! Per-frame rendering math: the foliage vertex shader
(src/components/Foliage.tsx:20-65) and the ornament frame update
(src/components/Ornaments.tsx:57-96). -/

/-- GLSL `clamp(x, lo, hi) = min(max(x, lo), hi)`. -/
noncomputable def glslClamp (x lo hi : ℝ) : ℝ := min (max x lo) hi

/-- GLSL `smoothstep(e0, e1, x)`. -/
noncomputable def smoothstep (e0 e1 x : ℝ) : ℝ :=
  let t := glslClamp ((x - e0) / (e1 - e0)) 0 1
  t * t * (3 - 2 * t)

/-- GLSL `mix(a, b, t) = a * (1 - t) + b * t`, componentwise on 3-vectors. -/
noncomputable def mix3 (a b : E3) (t : ℝ) : E3 := (1 - t) • a + t • b

/-- The cubic ease-out `1 - (1 - t)^3`, declared as `easeOut` in the foliage
vertex shader and computed inline as `easedT` in the ornament frame update
(src/components/Ornaments.tsx:64). -/
def easeOut (t : ℝ) : ℝ := 1 - (1 - t) ^ 3

/-- Wind offset added in scatter mode (`uMorph < 0.2`) by the foliage vertex
shader: `pos.y += sin(uTime*0.5 + aRandom*10) * 0.2;
pos.x += cos(uTime*0.3 + aRandom*10) * 0.2`. -/
noncomputable def windOffset (uTime aRandom : ℝ) : E3 :=
  vec3 (Real.cos (uTime * 0.3 + aRandom * 10) * 0.2)
       (Real.sin (uTime * 0.5 + aRandom * 10) * 0.2) 0

/-- Position computed by the foliage vertex shader for one particle:
smoothstep-eased interpolation from `aScatterPos` to `aTreePos`, plus a
breathing offset of amplitude 0.05 along the vertex normal when
`uMorph > 0.8`, plus wind drift when `uMorph < 0.2`. -/
noncomputable def foliageShaderPos (aScatterPos aTreePos nrm : E3)
    (uMorph uTime aRandom : ℝ) : E3 :=
  let localProgress := smoothstep 0 1 uMorph
  let pos := mix3 aScatterPos aTreePos localProgress
  let breath := Real.sin (uTime * 2 + aRandom * 10) * 0.05
  let pos1 := if 0.8 < uMorph then pos + breath • nrm else pos
  if uMorph < 0.2 then pos1 + windOffset uTime aRandom else pos1

/-- Per-instance position computed by the ornament frame update: cubic
ease-out interpolation from scatter to tree, plus floating jitter of amplitude
`(1 - t) * 0.5` on X and Y only. -/
noncomputable def ornamentFramePos (scatter tree : E3) (t time : ℝ) (i : ℕ) : E3 :=
  let easedT := easeOut t
  let cx := lerp (scatter 0) (tree 0) easedT
  let cy := lerp (scatter 1) (tree 1) easedT
  let cz := lerp (scatter 2) (tree 2) easedT
  let floatAmp := (1 - t) * 0.5
  vec3 (cx + Real.sin (time + i) * floatAmp)
       (cy + Real.cos (time * 0.8 + i) * floatAmp)
       cz

lemma smoothstep01 (p : ℝ) (h0 : 0 ≤ p) (h1 : p ≤ 1) :
    smoothstep 0 1 p = p * p * (3 - 2 * p) := by
  simp only [smoothstep, glslClamp]
  rw [show (p - 0) / (1 - 0) = p by norm_num, max_eq_left h0, min_eq_left h1]

/-- When the morph is past 0.8 and at most 1, the shader position differs from
the tree target by the eased interpolation residue plus at most the breathing
amplitude. -/
lemma foliageShaderPos_dist_le (s t nrm : E3) (p time rnd : ℝ)
    (hp08 : 0.8 < p) (hp1 : p ≤ 1) (hnrm : ‖nrm‖ ≤ 1) :
    dist (foliageShaderPos s t nrm p time rnd) t ≤
      (1 - p * p * (3 - 2 * p)) * ‖s - t‖ + 0.05 := by
  have hp0 : (0 : ℝ) ≤ p := by linarith
  have hss := smoothstep01 p hp0 hp1
  have hssle : p * p * (3 - 2 * p) ≤ 1 := by
    nlinarith [mul_nonneg (sq_nonneg (1 - p)) (by linarith : (0 : ℝ) ≤ 1 + 2 * p)]
  simp only [foliageShaderPos]
  rw [if_neg (by linarith : ¬ p < 0.2), if_pos hp08, dist_eq_norm]
  have hrw : mix3 s t (smoothstep 0 1 p) +
      (Real.sin (time * 2 + rnd * 10) * 0.05) • nrm - t =
      (1 - smoothstep 0 1 p) • (s - t) +
      (Real.sin (time * 2 + rnd * 10) * 0.05) • nrm := by
    simp only [mix3, sub_smul, smul_sub, one_smul]
    abel
  rw [hrw]
  have h1 := norm_add_le ((1 - smoothstep 0 1 p) • (s - t))
    ((Real.sin (time * 2 + rnd * 10) * 0.05) • nrm)
  rw [norm_smul, norm_smul, Real.norm_eq_abs, Real.norm_eq_abs] at h1
  have habs1 : |1 - smoothstep 0 1 p| = 1 - p * p * (3 - 2 * p) := by
    rw [hss]
    exact abs_of_nonneg (by linarith)
  have habs2 : |Real.sin (time * 2 + rnd * 10) * 0.05| ≤ 0.05 := by
    rw [abs_mul]
    have := Real.abs_sin_le_one (time * 2 + rnd * 10)
    have h05 : |(0.05 : ℝ)| = 0.05 := by norm_num
    nlinarith [abs_nonneg (Real.sin (time * 2 + rnd * 10))]
  rw [habs1] at h1
  have h2 : |Real.sin (time * 2 + rnd * 10) * 0.05| * ‖nrm‖ ≤ 0.05 := by
    have h0' := abs_nonneg (Real.sin (time * 2 + rnd * 10) * 0.05)
    nlinarith [norm_nonneg nrm]
  linarith

/-- Claim C7: the rendered ornament X and Y coordinates equal the cubic
ease-out interpolation from scatter to tree plus a sinusoidal jitter of
amplitude `(1 - t) * 0.5` (proportional to the raw, un-eased progress residue,
hence zero at `t = 1`); the Z coordinate receives no jitter and equals the
interpolated value exactly; at `t = 1` the rendered position is exactly the
tree target. -/
theorem ornament_frame_interpolation (scatter tree : E3) (t time : ℝ) (i : ℕ) :
    ornamentFramePos scatter tree t time i 0 =
      lerp (scatter 0) (tree 0) (easeOut t) + Real.sin (time + i) * ((1 - t) * 0.5) ∧
    ornamentFramePos scatter tree t time i 1 =
      lerp (scatter 1) (tree 1) (easeOut t) +
        Real.cos (time * 0.8 + i) * ((1 - t) * 0.5) ∧
    ornamentFramePos scatter tree t time i 2 = lerp (scatter 2) (tree 2) (easeOut t) ∧
    (t ≤ 1 →
      |ornamentFramePos scatter tree t time i 0 -
        lerp (scatter 0) (tree 0) (easeOut t)| ≤ (1 - t) * 0.5 ∧
      |ornamentFramePos scatter tree t time i 1 -
        lerp (scatter 1) (tree 1) (easeOut t)| ≤ (1 - t) * 0.5) ∧
    (t = 1 → ornamentFramePos scatter tree t time i = tree) := by
  refine ⟨rfl, rfl, rfl, fun ht => ⟨?_, ?_⟩, fun ht => ?_⟩
  · simp only [ornamentFramePos, vec3_apply_zero, add_sub_cancel_left]
    rw [abs_mul]
    have := Real.abs_sin_le_one (time + (i : ℝ))
    have h2 : |(1 - t) * 0.5| = (1 - t) * 0.5 := abs_of_nonneg (by nlinarith)
    nlinarith [abs_nonneg (Real.sin (time + (i : ℝ))),
      abs_nonneg ((1 - t) * 0.5)]
  · simp only [ornamentFramePos, vec3_apply_one, add_sub_cancel_left]
    rw [abs_mul]
    have := Real.abs_cos_le_one (time * 0.8 + (i : ℝ))
    have h2 : |(1 - t) * 0.5| = (1 - t) * 0.5 := abs_of_nonneg (by nlinarith)
    nlinarith [abs_nonneg (Real.cos (time * 0.8 + (i : ℝ))),
      abs_nonneg ((1 - t) * 0.5)]
  · subst ht
    funext j
    have he : easeOut 1 = 1 := by norm_num [easeOut]
    fin_cases j <;>
      simp [ornamentFramePos, vec3, lerp, he]

/-- Witness for claim C7: at `t = 1` the rendered instance position is exactly
the tree target. -/
theorem ornament_frame_interpolation_witness :
    ornamentFramePos (vec3 1 2 3) (vec3 4 5 6) 1 0 0 = vec3 4 5 6 :=
  (ornament_frame_interpolation (vec3 1 2 3) (vec3 4 5 6) 1 0 0).2.2.2.2 rfl

lemma one_sub_morphIter (dt : ℝ) (n : ℕ) :
    1 - morphIter 0 1 dt n = Real.exp (-2.5 * dt) ^ n := by
  induction n with
  | zero => simp [morphIter]
  | succ n ih =>
    have : morphIter 0 1 dt (n + 1) = morphTick (morphIter 0 1 dt n) 1 dt := rfl
    rw [this, morphTick_eq, pow_succ]
    linear_combination Real.exp (-2.5 * dt) * ih

set_option maxHeartbeats 1000000 in
/-- Claim C1: from progress 0, ticking the morph driver with target 1 and any
fixed positive frame delta, after finitely many ticks the progress exceeds
0.999 and stays there, and the rendered position of every particle (scatter
point from the [15, 25] shell, tree point from the cone volume, unit-bounded
vertex normal) then lies within `0.051` of its precomputed tree target; at
progress exactly 1 the eased interpolation maps to exactly the target, up to
the breathing offset of amplitude 0.05. -/
theorem foliage_end_to_end_convergence (dt : ℝ) (hdt : 0 < dt) :
    (∃ N : ℕ, ∀ n, N ≤ n →
      0.999 < morphIter 0 1 dt n ∧
      ∀ u1 u2 u3 v1 v2 v3 time rnd : ℝ, ∀ nrm : E3,
        0 ≤ u1 → u1 < 1 → 0 ≤ u3 → u3 < 1 → 0 ≤ v1 → v1 < 1 → ‖nrm‖ ≤ 1 →
        dist (foliageShaderPos (scatterShell 15 10 v1 v2 v3)
            (foliageTreePos u1 u2 u3) nrm (morphIter 0 1 dt n) time rnd)
          (foliageTreePos u1 u2 u3) ≤ 0.051) ∧
    (∀ s t nrm : E3, ∀ time rnd : ℝ, ‖nrm‖ ≤ 1 →
      dist (foliageShaderPos s t nrm 1 time rnd) t ≤ 0.05) := by
  constructor
  · have he0 : 0 < Real.exp (-2.5 * dt) := Real.exp_pos _
    have he1 : Real.exp (-2.5 * dt) < 1 := Real.exp_lt_one_iff.mpr (by nlinarith)
    obtain ⟨N, hN⟩ := exists_pow_lt_of_lt_one (show (0 : ℝ) < 0.001 by norm_num) he1
    refine ⟨N, fun n hn => ?_⟩
    have hpow : Real.exp (-2.5 * dt) ^ n ≤ Real.exp (-2.5 * dt) ^ N :=
      pow_le_pow_of_le_one he0.le he1.le hn
    have hiter := one_sub_morphIter dt n
    have h999 : 0.999 < morphIter 0 1 dt n := by linarith
    have hle1 : morphIter 0 1 dt n ≤ 1 := by
      nlinarith [pow_nonneg he0.le n]
    refine ⟨h999, ?_⟩
    intro u1 u2 u3 v1 v2 v3 time rnd nrm hu0 hu1 hu30 hu31 hv0 hv1 hnrm
    set p := morphIter 0 1 dt n with hp
    have hd := foliageShaderPos_dist_le (scatterShell 15 10 v1 v2 v3)
      (foliageTreePos u1 u2 u3) nrm p time rnd (by linarith) hle1 hnrm
    have hns : ‖scatterShell 15 10 v1 v2 v3‖ = 15 + v1 * 10 :=
      norm_scatterShell 15 10 v1 v2 v3 (by nlinarith)
    have hnt : ‖foliageTreePos u1 u2 u3‖ ≤ Real.sqrt (5 ^ 2 + 7 ^ 2) :=
      norm_foliageTreePos_le u1 u2 u3 hu0 hu1 hu30 hu31
    have hst : ‖scatterShell 15 10 v1 v2 v3 - foliageTreePos u1 u2 u3‖ ≤ 40 := by
      have h := norm_sub_le (scatterShell 15 10 v1 v2 v3) (foliageTreePos u1 u2 u3)
      have h74 := sqrt_74_lt_15
      nlinarith [hns, hnt, h]
    have h2 : (0 : ℝ) ≤ 1 - p := by linarith
    have h3 : 1 - p ≤ 0.001 := by linarith
    have h5 : 1 + 2 * p ≤ 3 := by linarith
    have hres0 : (0 : ℝ) ≤ 1 - p * p * (3 - 2 * p) := by
      nlinarith [mul_nonneg (mul_nonneg h2 h2) (by linarith : (0 : ℝ) ≤ 1 + 2 * p)]
    have h4 : (1 - p) * (1 - p) ≤ 0.001 * 0.001 := mul_le_mul h3 h3 h2 (by norm_num)
    have h6 : (1 - p) * (1 - p) * (1 + 2 * p) ≤ 0.001 * 0.001 * 3 :=
      mul_le_mul h4 h5 (by linarith) (by norm_num)
    have hres : 1 - p * p * (3 - 2 * p) ≤ 0.000003 := by nlinarith [h6]
    have hprod : (1 - p * p * (3 - 2 * p)) *
        ‖scatterShell 15 10 v1 v2 v3 - foliageTreePos u1 u2 u3‖ ≤ 0.000003 * 40 :=
      mul_le_mul hres hst (norm_nonneg _) (by norm_num)
    calc dist (foliageShaderPos (scatterShell 15 10 v1 v2 v3)
          (foliageTreePos u1 u2 u3) nrm p time rnd) (foliageTreePos u1 u2 u3) ≤
        (1 - p * p * (3 - 2 * p)) *
          ‖scatterShell 15 10 v1 v2 v3 - foliageTreePos u1 u2 u3‖ + 0.05 := hd
      _ ≤ 0.000003 * 40 + 0.05 := by linarith
      _ ≤ 0.051 := by norm_num
  · intro s t nrm time rnd hnrm
    have hd := foliageShaderPos_dist_le s t nrm 1 time rnd (by norm_num) le_rfl hnrm
    have : (1 : ℝ) - 1 * 1 * (3 - 2 * 1) = 0 := by norm_num
    rw [this, zero_mul, zero_add] at hd
    exact hd

/-- Witness for claim C1 at the fixed frame delta `dt = 1`. -/
theorem foliage_end_to_end_convergence_witness :
    (∃ N : ℕ, ∀ n, N ≤ n →
      0.999 < morphIter 0 1 1 n ∧
      ∀ u1 u2 u3 v1 v2 v3 time rnd : ℝ, ∀ nrm : E3,
        0 ≤ u1 → u1 < 1 → 0 ≤ u3 → u3 < 1 → 0 ≤ v1 → v1 < 1 → ‖nrm‖ ≤ 1 →
        dist (foliageShaderPos (scatterShell 15 10 v1 v2 v3)
            (foliageTreePos u1 u2 u3) nrm (morphIter 0 1 1 n) time rnd)
          (foliageTreePos u1 u2 u3) ≤ 0.051) ∧
    (∀ s t nrm : E3, ∀ time rnd : ℝ, ‖nrm‖ ≤ 1 →
      dist (foliageShaderPos s t nrm 1 time rnd) t ≤ 0.05) :=
  foliage_end_to_end_convergence 1 (by norm_num)

/-! Field construction (src/components/Foliage.tsx:92-131,
src/components/Ornaments.tsx:20-55), with the JavaScript semantics of the
`count` prop made explicit: a JS number used as a loop bound and a typed-array
length is either an integer or NaN. `for (let i = 0; i < count; i++)` runs
`max(count, 0)` times for an integer and 0 times for NaN (every comparison
with NaN is false); `new Float32Array(len)` throws a RangeError for a negative
length and yields a zero-length array for NaN. -/

/-- A JavaScript `count` value: an integer, or NaN. -/
inductive JSCount where
  | int : ℤ → JSCount
  | nan : JSCount

/-- Iterations performed by `for (let i = 0; i < count; i++)`. -/
def JSCount.loopIters : JSCount → ℕ
  | .int z => z.toNat
  | .nan => 0

/-- Multiplication of a `count` by a literal, as in `new Float32Array(count * 3)`. -/
def JSCount.mulNat : JSCount → ℕ → JSCount
  | .int z, k => .int (z * k)
  | .nan, _ => .nan

/-- Length of `new Float32Array(len)`: RangeError when negative, 0 for NaN. -/
def float32ArrayLength : JSCount → Except String ℕ
  | .int z => if z < 0 then .error "RangeError" else .ok z.toNat
  | .nan => .ok 0

/-- Per-instance data generated by the ornament field's `useMemo`
(src/components/Ornaments.tsx:20-55). -/
structure PositionData where
  tree : E3
  scatter : E3
  rotation : E3
  scale : ℝ

/-- The ornament field's construction loop: `count` iterations, each drawing
`yNorm`, three scatter draws, two rotation draws and a scale draw from the
random stream. It cannot fail: a negative or NaN count just runs the loop
zero times. -/
noncomputable def buildOrnamentData (rand : ℕ → ℝ) (count : JSCount) :
    List PositionData :=
  (List.range count.loopIters).map fun i =>
    { tree := ornamentTreePos i (rand (7 * i))
      scatter := scatterShell 12 12 (rand (7 * i + 1)) (rand (7 * i + 2)) (rand (7 * i + 3))
      rotation := vec3 (rand (7 * i + 4) * Real.pi) (rand (7 * i + 5) * Real.pi) 0
      scale := 0.5 + rand (7 * i + 6) * 0.5 }

/-- The per-element attribute buffers generated by the foliage field's
`useMemo` (src/components/Foliage.tsx:92-131). -/
structure FoliageBuffers where
  positions : List E3
  scatterPositions : List E3
  randoms : List ℝ

/-- The foliage field's construction: allocates `Float32Array(count * 3)`
twice and `Float32Array(count)` once (each allocation throwing a RangeError
for a negative length), then fills them with `count` loop iterations of seven
random draws each. -/
noncomputable def buildFoliage (rand : ℕ → ℝ) (count : JSCount) :
    Except String FoliageBuffers := do
  let _ ← float32ArrayLength (count.mulNat 3)
  let _ ← float32ArrayLength (count.mulNat 3)
  let _ ← float32ArrayLength count
  let n := count.loopIters
  Except.ok
    { positions := (List.range n).map fun i =>
        foliageTreePos (rand (7 * i)) (rand (7 * i + 1)) (rand (7 * i + 2))
      scatterPositions := (List.range n).map fun i =>
        scatterShell 15 10 (rand (7 * i + 3)) (rand (7 * i + 4)) (rand (7 * i + 5))
      randoms := (List.range n).map fun i => rand (7 * i + 6) }

/-- Per-frame instance positions computed by the ornament field's `useFrame`
loop: one output per stored instance. -/
noncomputable def ornamentFrameOutputs (data : List PositionData) (t time : ℝ) :
    List E3 :=
  data.enum.map fun x => ornamentFramePos x.2.scatter x.2.tree t time x.1

/-- Counterexample to claim C8: construction does NOT fail fast. The ornament
field built with `count = -1` silently yields an empty instance list (the
generation loop runs zero iterations), and the foliage field built with a NaN
count succeeds with empty buffers instead of raising. -/
theorem construction_does_not_fail_fast :
    buildOrnamentData (fun _ => 0) (JSCount.int (-1)) = [] ∧
    buildFoliage (fun _ => 0) JSCount.nan =
      Except.ok ⟨[], [], []⟩ := by
  constructor
  · simp [buildOrnamentData, JSCount.loopIters]
  · simp [buildFoliage, float32ArrayLength, JSCount.mulNat, JSCount.loopIters,
      Bind.bind, Except.bind]

/-- Claim C8 as amended: only the foliage field with a negative (integer)
count fails fast, through the `Float32Array` allocation's RangeError; the
ornament field with a negative count, and either field with a NaN count,
raises no error and silently produces an empty field. -/
theorem construction_negative_nan_behavior (rand : ℕ → ℝ) (z : ℤ) :
    (z < 0 →
      buildFoliage rand (JSCount.int z) = Except.error "RangeError" ∧
      buildOrnamentData rand (JSCount.int z) = []) ∧
    buildFoliage rand JSCount.nan =
      Except.ok ⟨[], [], []⟩ ∧
    buildOrnamentData rand JSCount.nan = [] := by
  refine ⟨fun hz => ⟨?_, ?_⟩, ?_, ?_⟩
  · have h3 : z * 3 < 0 := by omega
    simp [buildFoliage, float32ArrayLength, JSCount.mulNat, h3,
      Bind.bind, Except.bind]
  · have : z.toNat = 0 := Int.toNat_of_nonpos (le_of_lt hz)
    simp [buildOrnamentData, JSCount.loopIters, this]
  · simp [buildFoliage, float32ArrayLength, JSCount.mulNat, JSCount.loopIters,
      Bind.bind, Except.bind]
  · simp [buildOrnamentData, JSCount.loopIters]

/-- Witness for the amended claim C8 at `z = -1`. -/
theorem construction_negative_nan_behavior_witness :
    buildFoliage (fun _ => 0) (JSCount.int (-1)) = Except.error "RangeError" ∧
    buildOrnamentData (fun _ => 0) (JSCount.int (-1)) = [] :=
  (construction_negative_nan_behavior (fun _ => 0) (-1)).1 (by norm_num)

/-- Claim C9: constructing either field with `count = 0` succeeds without
error, all per-element buffers are empty, and the per-frame ornament update
over the (empty) element list is a no-op for every progress value and time. -/
theorem count_zero_empty_noop (rand : ℕ → ℝ) (t time : ℝ) :
    buildFoliage rand (JSCount.int 0) = Except.ok ⟨[], [], []⟩ ∧
    buildOrnamentData rand (JSCount.int 0) = [] ∧
    ornamentFrameOutputs (buildOrnamentData rand (JSCount.int 0)) t time = [] := by
  refine ⟨?_, ?_, ?_⟩
  · simp [buildFoliage, float32ArrayLength, JSCount.mulNat, JSCount.loopIters,
      Bind.bind, Except.bind]
  · simp [buildOrnamentData, JSCount.loopIters]
  · simp [ornamentFrameOutputs, buildOrnamentData, JSCount.loopIters]

end ChristmasTree
